import Mathlib

/-!
# web-forum: a shallow embedding of `main.go`

The program is a small forum served over HTTP and backed by one SQLite file.
Every Go function that takes the `*sql.DB` handle is embedded as a function
that takes the database state and returns the state it leaves behind; each
SQL statement of the source is one definition on that state.

Modelling conventions.

* The five tables are lists of rows in insertion (rowid) order.  A table
  declared `INTEGER PRIMARY KEY AUTOINCREMENT` takes its next rowid from the
  largest rowid the table ever held (`sqlite_sequence`), so the state keeps
  that counter per table.
* `UNIQUE` constraints are enforced by the engine on every `INSERT`.
  `FOREIGN KEY` clauses are declared by `createTables`, but SQLite enforces
  them only on a connection that has switched enforcement on; `main` opens
  `./forum.db` with no such option and no statement of the program issues the
  pragma, so an `INSERT` is not checked against the referenced table.
* A Go `string` bound to a column of declared type `INTEGER` goes through the
  column affinity conversion of the engine.  That conversion is a parameter
  `aff` of every function that binds the `post_id` form value, so that the
  results hold for whatever the engine does with a given text.
* `CURRENT_TIMESTAMP` has a resolution of one second.  The reading of the
  engine clock is a parameter `now` (seconds); the text stored in `created_at`
  orders the same way as the number of seconds it denotes.
* The connection is healthy: the only statement failures are constraint
  failures.  Rowids are unbounded integers.
* A request holds its cookies as `r.Cookie` reads them; a response holds the
  cookie values as `http.SetCookie` writes them, which drops the bytes a
  cookie value cannot carry.
-/

namespace Forum

/-! ## Values and rows -/

/-- Storage classes a column of this schema can hold. -/
inductive SqlValue where
  | integer (n : Int)
  | real (code : Nat)
  | text (s : String)
  deriving DecidableEq, Repr

/-- Reading of `database/sql` errors the program can observe. -/
inductive Error where
  /-- An error made by `fmt.Errorf` with the given message. -/
  | errorf (msg : String)
  /-- The engine refused a statement: a `UNIQUE` constraint failed. -/
  | uniqueConstraint (column : String)
  deriving DecidableEq, Repr

/-- Row of `Users (id, email UNIQUE, username UNIQUE, password)`. -/
structure UserRow where
  id : Int
  email : String
  username : String
  password : String
  deriving DecidableEq, Repr

/-- Row of `Posts (id, title, content, user_id, created_at)`. -/
structure PostRow where
  id : Int
  title : String
  content : String
  user_id : Int
  created_at : Nat
  deriving DecidableEq, Repr

/-- Row of `Comments (id, content, user_id, post_id, created_at)`. -/
structure CommentRow where
  id : Int
  content : String
  user_id : Int
  post_id : SqlValue
  created_at : Nat
  deriving DecidableEq, Repr

/-- Row of `Likes` and of `Dislikes`: `(id, user_id, post_id)` with
`UNIQUE (user_id, post_id)`. -/
structure ReactionRow where
  id : Int
  user_id : Int
  post_id : SqlValue
  deriving DecidableEq, Repr

/-- State of the database file: the five tables and their rowid counters. -/
structure DB where
  Users : List UserRow
  Posts : List PostRow
  Comments : List CommentRow
  Likes : List ReactionRow
  Dislikes : List ReactionRow
  seqUsers : Int
  seqPosts : Int
  seqComments : Int
  seqLikes : Int
  seqDislikes : Int
  deriving DecidableEq, Repr

/-- Database right after `createTables` ran on a fresh file. -/
def emptyDB : DB :=
  { Users := [], Posts := [], Comments := [], Likes := [], Dislikes := [],
    seqUsers := 0, seqPosts := 0, seqComments := 0, seqLikes := 0, seqDislikes := 0 }

/-- Rowid an `AUTOINCREMENT` table gives its next row: one more than the
largest rowid it has ever held. -/
def nextRowid (seq : Int) (ids : List Int) : Int :=
  max seq (ids.foldr max 0) + 1

/-! ## Statements -/

/-- Condition `WHERE post_id = ? AND user_id = ?` on a reaction table. -/
def ReactionRow.isPair (user : Int) (post : SqlValue) (r : ReactionRow) : Bool :=
  decide (r.post_id = post) && decide (r.user_id = user)

/-- Statement `SELECT id FROM Likes WHERE post_id = ? AND user_id = ?`, first row. -/
def DB.selectLikeId (db : DB) (post : SqlValue) (user : Int) : Option Int :=
  (db.Likes.find? (ReactionRow.isPair user post)).map (fun r => r.id)

/-- Statement `SELECT id FROM Dislikes WHERE post_id = ? AND user_id = ?`, first row. -/
def DB.selectDislikeId (db : DB) (post : SqlValue) (user : Int) : Option Int :=
  (db.Dislikes.find? (ReactionRow.isPair user post)).map (fun r => r.id)

/-- Statement `INSERT INTO Likes (post_id, user_id) VALUES (?, ?)`. -/
def DB.insertLike (db : DB) (post : SqlValue) (user : Int) : Except Error DB :=
  if db.Likes.any (ReactionRow.isPair user post) then
    .error (.uniqueConstraint "Likes.user_id, Likes.post_id")
  else
    let id := nextRowid db.seqLikes (db.Likes.map (fun r => r.id))
    .ok { db with Likes := db.Likes ++ [{ id := id, user_id := user, post_id := post }],
                  seqLikes := id }

/-- Statement `INSERT INTO Dislikes (post_id, user_id) VALUES (?, ?)`. -/
def DB.insertDislike (db : DB) (post : SqlValue) (user : Int) : Except Error DB :=
  if db.Dislikes.any (ReactionRow.isPair user post) then
    .error (.uniqueConstraint "Dislikes.user_id, Dislikes.post_id")
  else
    let id := nextRowid db.seqDislikes (db.Dislikes.map (fun r => r.id))
    .ok { db with Dislikes := db.Dislikes ++ [{ id := id, user_id := user, post_id := post }],
                  seqDislikes := id }

/-- Statement `DELETE FROM Likes WHERE post_id = ? AND user_id = ?`. -/
def DB.deleteLike (db : DB) (post : SqlValue) (user : Int) : DB :=
  { db with Likes := db.Likes.filter (fun r => !ReactionRow.isPair user post r) }

/-- Statement `DELETE FROM Dislikes WHERE post_id = ? AND user_id = ?`. -/
def DB.deleteDislike (db : DB) (post : SqlValue) (user : Int) : DB :=
  { db with Dislikes := db.Dislikes.filter (fun r => !ReactionRow.isPair user post r) }

/-- Statement `INSERT INTO Users (email, username, password) VALUES (?, ?, ?)`. -/
def DB.insertUser (db : DB) (email username password : String) : Except Error DB :=
  if db.Users.any (fun u => decide (u.email = email)) then
    .error (.uniqueConstraint "Users.email")
  else if db.Users.any (fun u => decide (u.username = username)) then
    .error (.uniqueConstraint "Users.username")
  else
    let id := nextRowid db.seqUsers (db.Users.map (fun u => u.id))
    .ok { db with Users := db.Users ++
                    [{ id := id, email := email, username := username, password := password }],
                  seqUsers := id }

/-- Statement `INSERT INTO Posts (title, content, user_id) VALUES (?, ?, ?)`; the
column `created_at` takes its default, the clock reading. -/
def DB.insertPost (db : DB) (now : Nat) (title content : String) (user : Int) : Except Error DB :=
  let id := nextRowid db.seqPosts (db.Posts.map (fun p => p.id))
  .ok { db with Posts := db.Posts ++
                  [{ id := id, title := title, content := content, user_id := user,
                     created_at := now }],
                seqPosts := id }

/-- Statement `INSERT INTO Comments (content, post_id, user_id) VALUES (?, ?, ?)`. -/
def DB.insertComment (db : DB) (now : Nat) (content : String) (post : SqlValue) (user : Int) :
    Except Error DB :=
  let id := nextRowid db.seqComments (db.Comments.map (fun c => c.id))
  .ok { db with Comments := db.Comments ++
                  [{ id := id, content := content, user_id := user, post_id := post,
                     created_at := now }],
                seqComments := id }

/-- Statement `SELECT email, password FROM Users WHERE email = ?`, first row. -/
def DB.selectCredentials (db : DB) (email : String) : Option (String × String) :=
  (db.Users.find? (fun u => decide (u.email = email))).map (fun u => (u.email, u.password))

/-- Result of `db.Exec`: the error, and the state left behind (a failed
statement changes nothing). -/
def execResult (db : DB) (r : Except Error DB) : Option Error × DB :=
  match r with
  | .ok db1 => (none, db1)
  | .error e => (some e, db)

/-! ## Auth component -/

/-- Go `registerUser`. -/
def registerUser (db : DB) (email username password : String) : Option Error × DB :=
  execResult db (db.insertUser email username password)

/-- Go `authenticateUser`: the pair `(bool, error)` and the database state. -/
def authenticateUser (db : DB) (email password : String) : (Bool × Option Error) × DB :=
  match db.selectCredentials email with
  | none => ((false, some (.errorf "user not found")), db)
  | some (_dbEmail, dbPassword) =>
    if password = dbPassword then ((true, none), db)
    else ((false, some (.errorf "invalid password")), db)

/-! ## Reaction component -/

/-- Go `likePost`. -/
def likePost (aff : String → SqlValue) (db : DB) (postID : String) (userID : Int) :
    Option Error × DB :=
  let existingID : Int := (db.selectLikeId (aff postID) userID).getD 0
  if existingID = 0 then
    match db.insertLike (aff postID) userID with
    | .error e => (some e, db)
    | .ok db1 => (none, db1.deleteDislike (aff postID) userID)
  else (none, db)

/-- Go `dislikePost`. -/
def dislikePost (aff : String → SqlValue) (db : DB) (postID : String) (userID : Int) :
    Option Error × DB :=
  let existingID : Int := (db.selectDislikeId (aff postID) userID).getD 0
  if existingID = 0 then
    match db.insertDislike (aff postID) userID with
    | .error e => (some e, db)
    | .ok db1 => (none, db1.deleteLike (aff postID) userID)
  else (none, db)

/-! ## Content component -/

/-- Go `createPost`. -/
def createPost (db : DB) (now : Nat) (title content : String) (userID : Int) :
    Option Error × DB :=
  execResult db (db.insertPost now title content userID)

/-- Go `createComment`. -/
def createComment (aff : String → SqlValue) (db : DB) (now : Nat) (content postID : String)
    (userID : Int) : Option Error × DB :=
  execResult db (db.insertComment now content (aff postID) userID)

/-- Go `Comment`. -/
structure Comment where
  Content : String
  Username : String
  CreatedAt : Nat
  deriving DecidableEq, Repr

/-- Go `Post`. -/
structure Post where
  ID : Int
  Title : String
  Content : String
  Username : String
  CreatedAt : Nat
  Likes : Nat
  Dislikes : Nat
  Comments : List Comment
  deriving DecidableEq, Repr

/-- Insertion of one row into a list ordered by `le`. -/
def orderedInsert {α : Type} (le : α → α → Bool) (x : α) : List α → List α
  | [] => [x]
  | y :: ys => if le x y then x :: y :: ys else y :: orderedInsert le x ys

/-- Clause `ORDER BY`: the rows sorted by `le`.  SQL leaves the order of rows with
equal keys open; this sort keeps them in table order. -/
def orderBy {α : Type} (le : α → α → Bool) (rows : List α) : List α :=
  rows.foldr (orderedInsert le) []

/-- Go `fetchComments`: the comments of one post joined with their authors,
`ORDER BY Comments.created_at ASC`. -/
def fetchComments (db : DB) (postID : Int) : List Comment :=
  let joined : List Comment :=
    (db.Comments.filter (fun c => decide (c.post_id = .integer postID))).flatMap fun c =>
      (db.Users.filter (fun u => decide (c.user_id = u.id))).map fun u =>
        { Content := c.content, Username := u.username, CreatedAt := c.created_at }
  orderBy (fun a b => decide (a.CreatedAt ≤ b.CreatedAt)) joined

/-- Rows of the query of `fetchPosts`: posts joined with their authors, with
the two correlated counts, `ORDER BY Posts.created_at DESC`. -/
def DB.selectPosts (db : DB) : List Post :=
  let joined : List Post :=
    db.Posts.flatMap fun p =>
      (db.Users.filter (fun u => decide (p.user_id = u.id))).map fun u =>
        { ID := p.id, Title := p.title, Content := p.content, Username := u.username,
          CreatedAt := p.created_at,
          Likes := (db.Likes.filter (fun l => decide (l.post_id = .integer p.id))).length,
          Dislikes := (db.Dislikes.filter (fun l => decide (l.post_id = .integer p.id))).length,
          Comments := [] }
  orderBy (fun a b => decide (b.CreatedAt ≤ a.CreatedAt)) joined

/-- Go `fetchPosts`: each row of the query, with its comments attached. -/
def fetchPosts (db : DB) : List Post :=
  db.selectPosts.map fun post => { post with Comments := fetchComments db post.ID }

/-! ## HTTP layer -/

/-- Go `http.Request`: the parts of a request the handlers read. -/
structure Request where
  Method : String
  Form : List (String × String)
  Cookies : List (String × String)
  deriving DecidableEq, Repr

/-- Go `r.FormValue`: the first value of the field, the empty string if the
field is absent. -/
def Request.FormValue (r : Request) (key : String) : String :=
  (r.Form.lookup key).getD ""

/-- Go `r.Cookie`: the value of the first cookie of that name, if any. -/
def Request.Cookie (r : Request) (name : String) : Option String :=
  r.Cookies.lookup name

/-- What a handler wrote as the body of its response. -/
inductive Body where
  | empty
  | text (s : String)
  /-- An executed template file, with the posts it was given (if any). -/
  | template (file : String) (data : Option (List Post))
  deriving DecidableEq, Repr

/-- What a handler wrote to its `http.ResponseWriter`. -/
structure Response where
  status : Nat
  location : Option String
  cookies : List (String × String)
  body : Body
  deriving DecidableEq, Repr

/-- Writer of a request nothing has been written to: net/http answers 200
with an empty body. -/
def Response.fresh : Response :=
  { status := 200, location := none, cookies := [], body := .empty }

/-- Go `http.Error`. -/
def httpError (w : Response) (msg : String) (code : Nat) : Response :=
  { w with status := code, body := .text (msg ++ "\n") }

/-- Go `http.Redirect` with `http.StatusSeeOther`; only a GET request gets
the short HTML body. -/
def httpRedirect (w : Response) (r : Request) (url : String) : Response :=
  { w with status := 303, location := some url,
           body := if r.Method = "GET" then
                     .text ("<a href=\"" ++ url ++ "\">See Other</a>.\n\n")
                   else w.body }

/-- Go `tmpl.Execute(w, data)` on a parsed template file. -/
def executeTemplate (w : Response) (file : String) (data : Option (List Post)) : Response :=
  { w with body := .template file data }

/-- Go `validCookieValueByte` of net/http: the bytes a cookie value may
carry, those from 0x20 to 0x7e other than the double quote (0x22), the
semicolon (0x3b) and the backslash (0x5c).  The bytes of a character outside
ASCII are all 0x80 or more, so a test on the character decides all its
bytes. -/
def validCookieValueByte (b : Char) : Bool :=
  decide (0x20 ≤ b.toNat) && decide (b.toNat < 0x7f) && decide (b.toNat ≠ 0x22) &&
    decide (b.toNat ≠ 0x3b) && decide (b.toNat ≠ 0x5c)

/-- Go `sanitizeOrWarn` of net/http: the text with its invalid bytes dropped. -/
def sanitizeOrWarn (valid : Char → Bool) (v : String) : String :=
  String.mk (v.data.filter valid)

/-- Go `sanitizeCookieValue` of net/http: the cookie value `http.SetCookie`
writes in the `Set-Cookie` header; invalid bytes are dropped and a value with
a space or a comma is put in double quotes. -/
def sanitizeCookieValue (v : String) : String :=
  let v1 := sanitizeOrWarn validCookieValueByte v
  if v1.data.any (fun b => decide (b.toNat = 0x20) || decide (b.toNat = 0x2c)) then
    String.mk (Char.ofNat 0x22 :: (v1.data ++ [Char.ofNat 0x22]))
  else v1

/-- Go `parseCookieValue` of net/http with double quotes allowed, as
`r.Cookie` reads a value of the `Cookie` header: surrounding double quotes are
stripped, and a value with an invalid byte is not a cookie. -/
def parseCookieValue (raw : String) : Option String :=
  let bytes := raw.data
  let inner :=
    if 1 < bytes.length ∧ bytes.head?.map Char.toNat = some 0x22 ∧
        bytes.getLast?.map Char.toNat = some 0x22 then
      (bytes.drop 1).dropLast
    else bytes
  if inner.all validCookieValueByte then some (String.mk inner) else none

/-- Cookies of the next request of a client that sends back, as they were
written, the cookies a response set: each value is read by
`parseCookieValue`. -/
def echoCookies (set : List (String × String)) : List (String × String) :=
  set.filterMap fun c => (parseCookieValue c.2).map fun v => (c.1, v)

/-- Go `setSession`: `http.SetCookie` with the name `key`, the value `value`
and the path "/".  The response keeps the name and the cookie value written
in the `Set-Cookie` header. -/
def setSession (w : Response) (key value : String) : Response :=
  { w with cookies := w.cookies ++ [(key, sanitizeCookieValue value)] }

/-- Go `getSession`. -/
def getSession (r : Request) (key : String) : String :=
  match r.Cookie key with
  | none => ""
  | some value => value

/-- Go `http.HandlerFunc`, run on a fresh writer: the request, the clock
reading of the engine during the request, and the database state. -/
abbrev Handler := Request → Nat → DB → Response × DB

/-- Go `registerPageHandler`. -/
def registerPageHandler : Handler := fun r _now db =>
  if r.Method = "GET" then
    (executeTemplate Response.fresh "register.html" none, db)
  else if r.Method = "POST" then
    let email := r.FormValue "email"
    let username := r.FormValue "username"
    let password := r.FormValue "password"
    match registerUser db email username password with
    | (some _, db1) => (httpError Response.fresh "Unable to register user" 500, db1)
    | (none, db1) => (httpRedirect Response.fresh r "/", db1)
  else (Response.fresh, db)

/-- Go `logInPageHandler`. -/
def logInPageHandler : Handler := fun r _now db =>
  if r.Method = "GET" then
    (executeTemplate Response.fresh "login.html" none, db)
  else if r.Method = "POST" then
    let email := r.FormValue "email"
    let password := r.FormValue "password"
    match authenticateUser db email password with
    | ((_, some (.errorf msg)), db1) => (httpError Response.fresh msg 401, db1)
    | ((_, some (.uniqueConstraint c)), db1) => (httpError Response.fresh c 401, db1)
    | ((valid, none), db1) =>
      if valid then
        (httpRedirect (setSession Response.fresh "user" email) r "/forum", db1)
      else (httpError Response.fresh "Invalid login credentials" 401, db1)
  else (Response.fresh, db)

/-- Go `forumPageHandler`. -/
def forumPageHandler : Handler := fun r _now db =>
  if r.Method = "GET" then
    (executeTemplate Response.fresh "index.html" (some (fetchPosts db)), db)
  else (Response.fresh, db)

/-- Go `createPostHandler`. -/
def createPostHandler : Handler := fun r now db =>
  if r.Method = "POST" then
    let title := r.FormValue "title"
    let content := r.FormValue "content"
    let userID : Int := 1
    match createPost db now title content userID with
    | (some _, db1) => (httpError Response.fresh "Unable to create post" 500, db1)
    | (none, db1) => (httpRedirect Response.fresh r "/forum", db1)
  else (Response.fresh, db)

/-- Go `likeHandler`. -/
def likeHandler (aff : String → SqlValue) : Handler := fun r _now db =>
  if r.Method = "POST" then
    let postID := r.FormValue "post_id"
    let userID : Int := 1
    match likePost aff db postID userID with
    | (some _, db1) => (httpError Response.fresh "Unable to like post" 500, db1)
    | (none, db1) => (httpRedirect Response.fresh r "/forum", db1)
  else (Response.fresh, db)

/-- Go `dislikeHandler`. -/
def dislikeHandler (aff : String → SqlValue) : Handler := fun r _now db =>
  if r.Method = "POST" then
    let postID := r.FormValue "post_id"
    let userID : Int := 1
    match dislikePost aff db postID userID with
    | (some _, db1) => (httpError Response.fresh "Unable to dislike post" 500, db1)
    | (none, db1) => (httpRedirect Response.fresh r "/forum", db1)
  else (Response.fresh, db)

/-- Go `commentHandler`. -/
def commentHandler (aff : String → SqlValue) : Handler := fun r now db =>
  if r.Method = "POST" then
    let postID := r.FormValue "post_id"
    let content := r.FormValue "comment"
    let userID : Int := 1
    match createComment aff db now content postID userID with
    | (some _, db1) => (httpError Response.fresh "Unable to add comment" 500, db1)
    | (none, db1) => (httpRedirect Response.fresh r "/forum", db1)
  else (Response.fresh, db)

/-- Go `guestLoginHandler`; the ping of the connection has no effect. -/
def guestLoginHandler : Handler := fun r _now db =>
  if r.Method = "GET" then
    (httpRedirect (setSession Response.fresh "user" "guest") r "/forum", db)
  else (Response.fresh, db)

/-- Go `authorize`. -/
def authorize (next : Handler) : Handler := fun r now db =>
  let user := getSession r "user"
  if user = "guest" then
    (httpError Response.fresh "Guest users cannot perform this action" 403, db)
  else next r now db

/-- Route table registered by Go `main`, in registration order. -/
def routes (aff : String → SqlValue) : List (String × Handler) :=
  [ ("/", logInPageHandler),
    ("/register", registerPageHandler),
    ("/guestLogin", guestLoginHandler),
    ("/forum", forumPageHandler),
    ("/createPost", authorize createPostHandler),
    ("/like", authorize (likeHandler aff)),
    ("/dislike", authorize (dislikeHandler aff)),
    ("/comment", authorize (commentHandler aff)) ]

/-! ## Sequential executions -/

/-- One call of a reaction function. -/
inductive ReactionCall where
  | like (postID : String) (userID : Int)
  | dislike (postID : String) (userID : Int)
  deriving DecidableEq, Repr

/-- State after one reaction call. -/
def ReactionCall.run (aff : String → SqlValue) (db : DB) : ReactionCall → DB
  | .like postID userID => (likePost aff db postID userID).2
  | .dislike postID userID => (dislikePost aff db postID userID).2

/-- State after a sequence of reaction calls, made one after the other. -/
def runReactions (aff : String → SqlValue) (calls : List ReactionCall) (db : DB) : DB :=
  calls.foldl (ReactionCall.run aff) db

/-- One call of a function that writes to the database. -/
inductive Op where
  | register (email username password : String)
  | createPost (now : Nat) (title content : String) (userID : Int)
  | createComment (now : Nat) (content postID : String) (userID : Int)
  | like (postID : String) (userID : Int)
  | dislike (postID : String) (userID : Int)
  deriving DecidableEq, Repr

/-- State after one call. -/
def Op.run (aff : String → SqlValue) (db : DB) : Op → DB
  | .register email username password => (Forum.registerUser db email username password).2
  | .createPost now title content userID => (Forum.createPost db now title content userID).2
  | .createComment now content postID userID =>
      (Forum.createComment aff db now content postID userID).2
  | .like postID userID => (likePost aff db postID userID).2
  | .dislike postID userID => (dislikePost aff db postID userID).2

/-- State after a sequence of calls, made one after the other. -/
def runOps (aff : String → SqlValue) (ops : List Op) (db : DB) : DB :=
  ops.foldl (Op.run aff) db

/-- Number of rows of a reaction table for the pair `(user, post)`. -/
def pairCount (rows : List ReactionRow) (user : Int) (post : SqlValue) : Nat :=
  rows.countP (ReactionRow.isPair user post)

/-- Column affinity used to run the model on examples: a decimal integer
literal is stored as an integer, any other text as text. -/
def decimalAffinity (s : String) : SqlValue :=
  let digits := s.data
  if digits ≠ [] ∧ digits.all Char.isDigit then
    .integer (digits.foldl (fun n c => 10 * n + (c.toNat - 48)) 0)
  else .text s

/-! ## Invariants of the reaction tables -/

/-- Reaction tables as the schema keeps them: rowids handed out by
`AUTOINCREMENT` are never 0 and a `(user_id, post_id)` pair occurs at most
once per table. -/
structure SchemaValid (db : DB) : Prop where
  likeIds : ∀ r ∈ db.Likes, r.id ≠ 0
  dislikeIds : ∀ r ∈ db.Dislikes, r.id ≠ 0
  likeUnique : ∀ u p, pairCount db.Likes u p ≤ 1
  dislikeUnique : ∀ u p, pairCount db.Dislikes u p ≤ 1

/-- No pair has a row in both reaction tables. -/
def Exclusive (db : DB) : Prop :=
  ∀ u p, pairCount db.Likes u p = 0 ∨ pairCount db.Dislikes u p = 0

/-- Every post names an existing user as author; every comment names an
existing user and an existing post. -/
def ReferentialIntegrity (db : DB) : Prop :=
  (∀ p ∈ db.Posts, ∃ u ∈ db.Users, u.id = p.user_id) ∧
  (∀ c ∈ db.Comments,
    (∃ u ∈ db.Users, u.id = c.user_id) ∧ ∃ p ∈ db.Posts, c.post_id = .integer p.id)

/-- Scenario of registering, logging in and posting on an empty database:
the three responses and the posts listed at the end.  The request to
`/createPost` comes from the client that logged in: it carries the cookies
the login response set, as the server reads them back. -/
def scenario (email username password title content : String) (now : Nat) :
    Option Error × Response × Response × List Post :=
  let reg := registerUser emptyDB email username password
  let login := logInPageHandler
    { Method := "POST", Form := [("email", email), ("password", password)], Cookies := [] }
    now reg.2
  let create := authorize createPostHandler
    { Method := "POST", Form := [("title", title), ("content", content)],
      Cookies := echoCookies login.1.cookies }
    now login.2
  (reg.1, login.1, create.1, fetchPosts create.2)

/-- State with two registered users, alice (id 1) and bob (id 2). -/
def twoUsersDB : DB :=
  runOps decimalAffinity
    [.register "a@x.com" "alice" "pw1", .register "b@x.com" "bob" "pw2"] emptyDB

/-- POST carrying the form fields of the four gated routes, under the
session of the given user. -/
def postAs (session : String) : Request :=
  { Method := "POST",
    Form := [("title", "t"), ("content", "c"), ("post_id", "1"), ("comment", "hi")],
    Cookies := [("user", session)] }

/-- State with two posts made within one second and two comments made
within one second on the first of them. -/
def sameSecondDB : DB :=
  runOps decimalAffinity
    [.register "a@x.com" "alice" "pw1", .createPost 5 "first" "x" 1,
     .createPost 5 "second" "y" 1, .createComment 6 "c1" "1" 1,
     .createComment 6 "c2" "1" 1] emptyDB

/-! ## Basic facts -/

theorem nextRowid_pos (seq : Int) (ids : List Int) : 0 < nextRowid seq ids := by
  have h : (0 : Int) ≤ ids.foldr max 0 := by
    induction ids with
    | nil => simp
    | cons a t ih => simp only [List.foldr_cons]; exact le_max_of_le_right ih
  unfold nextRowid
  have := le_max_right seq (ids.foldr max 0)
  omega

theorem isPair_mk (id u0 u : Int) (p0 p : SqlValue) :
    ReactionRow.isPair u p { id := id, user_id := u0, post_id := p0 } = true ↔
      u0 = u ∧ p0 = p := by
  simp [ReactionRow.isPair, and_comm]

theorem pairCount_append_single (rows : List ReactionRow) (id u0 u : Int) (p0 p : SqlValue) :
    pairCount (rows ++ [{ id := id, user_id := u0, post_id := p0 }]) u p =
      pairCount rows u p + if u0 = u ∧ p0 = p then 1 else 0 := by
  unfold pairCount
  rw [List.countP_append]
  by_cases h : u0 = u ∧ p0 = p
  · have h1 : ReactionRow.isPair u p { id := id, user_id := u0, post_id := p0 } = true :=
      (isPair_mk id u0 u p0 p).2 h
    rw [if_pos h, List.countP_cons, h1]
    simp
  · have h2 : ReactionRow.isPair u p { id := id, user_id := u0, post_id := p0 } = false := by
      rw [Bool.eq_false_iff]; exact fun hc => h ((isPair_mk id u0 u p0 p).1 hc)
    simp [h, List.countP_cons, h2]

theorem isPair_eq_of_both {u0 u : Int} {p0 p : SqlValue} {r : ReactionRow}
    (h1 : ReactionRow.isPair u0 p0 r = true) (h2 : ReactionRow.isPair u p r = true) :
    u0 = u ∧ p0 = p := by
  simp [ReactionRow.isPair] at h1 h2
  exact ⟨h1.2.symm.trans h2.2, h1.1.symm.trans h2.1⟩

theorem pairCount_delete (rows : List ReactionRow) (u0 u : Int) (p0 p : SqlValue) :
    pairCount (rows.filter (fun r => !ReactionRow.isPair u0 p0 r)) u p =
      if u0 = u ∧ p0 = p then 0 else pairCount rows u p := by
  unfold pairCount
  rw [List.countP_filter]
  by_cases h : u0 = u ∧ p0 = p
  · obtain ⟨rfl, rfl⟩ := h
    simp
  · rw [if_neg h]
    apply List.countP_congr
    intro r _
    constructor
    · intro hr
      simp only [Bool.and_eq_true] at hr
      exact hr.1
    · intro hr
      simp only [Bool.and_eq_true, Bool.not_eq_true', hr, true_and]
      rw [Bool.eq_false_iff]
      exact fun hc => h (isPair_eq_of_both hc hr)

theorem find_none_iff_pairCount (rows : List ReactionRow) (u : Int) (p : SqlValue) :
    rows.find? (ReactionRow.isPair u p) = none ↔ pairCount rows u p = 0 := by
  unfold pairCount
  rw [List.find?_eq_none, List.countP_eq_zero]

theorem any_false_of_find_none {rows : List ReactionRow} {u : Int} {p : SqlValue}
    (h : rows.find? (ReactionRow.isPair u p) = none) :
    rows.any (ReactionRow.isPair u p) = false := by
  rw [List.find?_eq_none] at h
  rw [Bool.eq_false_iff]
  intro hc
  rw [List.any_eq_true] at hc
  obtain ⟨r, hr, hp⟩ := hc
  exact h r hr hp

/-- State `likePost` leaves when the pair has no Like row: the new row is
appended and the Dislike rows of the pair are deleted. -/
theorem likePost_absent (aff : String → SqlValue) (db : DB) (postID : String) (userID : Int)
    (h : db.Likes.find? (ReactionRow.isPair userID (aff postID)) = none) :
    likePost aff db postID userID =
      (none, { db with
        Likes := db.Likes ++ [{ id := nextRowid db.seqLikes (db.Likes.map (fun r => r.id)),
                                user_id := userID, post_id := aff postID }],
        seqLikes := nextRowid db.seqLikes (db.Likes.map (fun r => r.id)),
        Dislikes := db.Dislikes.filter (fun r => !ReactionRow.isPair userID (aff postID) r) }) := by
  simp [likePost, DB.selectLikeId, DB.insertLike, DB.deleteDislike, h, any_false_of_find_none h]

/-- A call of `likePost` on a pair that has a Like row with a rowid other
than 0 changes nothing. -/
theorem likePost_present (aff : String → SqlValue) (db : DB) (postID : String) (userID : Int)
    (r : ReactionRow) (h : db.Likes.find? (ReactionRow.isPair userID (aff postID)) = some r)
    (hid : r.id ≠ 0) :
    likePost aff db postID userID = (none, db) := by
  simp [likePost, DB.selectLikeId, h, hid]

theorem dislikePost_absent (aff : String → SqlValue) (db : DB) (postID : String) (userID : Int)
    (h : db.Dislikes.find? (ReactionRow.isPair userID (aff postID)) = none) :
    dislikePost aff db postID userID =
      (none, { db with
        Dislikes := db.Dislikes ++
          [{ id := nextRowid db.seqDislikes (db.Dislikes.map (fun r => r.id)),
             user_id := userID, post_id := aff postID }],
        seqDislikes := nextRowid db.seqDislikes (db.Dislikes.map (fun r => r.id)),
        Likes := db.Likes.filter (fun r => !ReactionRow.isPair userID (aff postID) r) }) := by
  simp [dislikePost, DB.selectDislikeId, DB.insertDislike, DB.deleteLike, h,
    any_false_of_find_none h]

theorem dislikePost_present (aff : String → SqlValue) (db : DB) (postID : String) (userID : Int)
    (r : ReactionRow) (h : db.Dislikes.find? (ReactionRow.isPair userID (aff postID)) = some r)
    (hid : r.id ≠ 0) :
    dislikePost aff db postID userID = (none, db) := by
  simp [dislikePost, DB.selectDislikeId, h, hid]

theorem schemaValid_of_tables {db db1 : DB} (hv : SchemaValid db)
    (hl : db1.Likes = db.Likes) (hd : db1.Dislikes = db.Dislikes) : SchemaValid db1 := by
  constructor
  · rw [hl]; exact hv.likeIds
  · rw [hd]; exact hv.dislikeIds
  · rw [hl]; exact hv.likeUnique
  · rw [hd]; exact hv.dislikeUnique

theorem exclusive_of_tables {db db1 : DB} (he : Exclusive db)
    (hl : db1.Likes = db.Likes) (hd : db1.Dislikes = db.Dislikes) : Exclusive db1 := by
  intro u p
  rw [hl, hd]
  exact he u p

theorem emptyDB_schemaValid : SchemaValid emptyDB := by
  constructor <;> simp [emptyDB, pairCount]

theorem emptyDB_exclusive : Exclusive emptyDB := by
  intro u p
  simp [emptyDB, pairCount]

/-- Rows an `INSERT` followed by the `DELETE` on the other table leave keep
the schema invariant. -/
theorem toggle_schemaValid {ins del : List ReactionRow} (seq : Int) {u0 : Int} {p0 : SqlValue}
    (hids : ∀ r ∈ ins, r.id ≠ 0) (hdel : ∀ r ∈ del, r.id ≠ 0)
    (hu : ∀ u p, pairCount ins u p ≤ 1) (hd : ∀ u p, pairCount del u p ≤ 1)
    (h0 : pairCount ins u0 p0 = 0) :
    (∀ r ∈ ins ++ [{ id := nextRowid seq (ins.map (fun r => r.id)), user_id := u0,
                      post_id := p0 }], r.id ≠ 0) ∧
    (∀ r ∈ del.filter (fun r => !ReactionRow.isPair u0 p0 r), r.id ≠ 0) ∧
    (∀ u p, pairCount (ins ++ [{ id := nextRowid seq (ins.map (fun r => r.id)), user_id := u0,
                                 post_id := p0 }]) u p ≤ 1) ∧
    (∀ u p, pairCount (del.filter (fun r => !ReactionRow.isPair u0 p0 r)) u p ≤ 1) := by
  refine ⟨?_, ?_, ?_, ?_⟩
  · intro r hr
    rw [List.mem_append, List.mem_singleton] at hr
    rcases hr with hr | rfl
    · exact hids r hr
    · exact ne_of_gt (nextRowid_pos _ _)
  · intro r hr
    exact hdel r (List.mem_of_mem_filter hr)
  · intro u p
    rw [pairCount_append_single]
    by_cases h : u0 = u ∧ p0 = p
    · obtain ⟨rfl, rfl⟩ := h
      simp [h0]
    · rw [if_neg h]
      exact hu u p
  · intro u p
    rw [pairCount_delete]
    split
    · exact Nat.zero_le _
    · exact hd u p

theorem likePost_schemaValid (aff : String → SqlValue) (db : DB) (postID : String)
    (userID : Int) (hv : SchemaValid db) :
    SchemaValid (likePost aff db postID userID).2 := by
  cases h : db.Likes.find? (ReactionRow.isPair userID (aff postID)) with
  | none =>
    rw [likePost_absent aff db postID userID h]
    obtain ⟨h1, h2, h3, h4⟩ := toggle_schemaValid db.seqLikes hv.likeIds hv.dislikeIds
      hv.likeUnique hv.dislikeUnique ((find_none_iff_pairCount _ _ _).1 h)
    exact ⟨h1, h2, h3, h4⟩
  | some r =>
    rw [likePost_present aff db postID userID r h (hv.likeIds r (List.mem_of_find?_eq_some h))]
    exact hv

theorem dislikePost_schemaValid (aff : String → SqlValue) (db : DB) (postID : String)
    (userID : Int) (hv : SchemaValid db) :
    SchemaValid (dislikePost aff db postID userID).2 := by
  cases h : db.Dislikes.find? (ReactionRow.isPair userID (aff postID)) with
  | none =>
    rw [dislikePost_absent aff db postID userID h]
    obtain ⟨h1, h2, h3, h4⟩ := toggle_schemaValid db.seqDislikes hv.dislikeIds
      hv.likeIds hv.dislikeUnique hv.likeUnique ((find_none_iff_pairCount _ _ _).1 h)
    exact ⟨h2, h1, h4, h3⟩
  | some r =>
    rw [dislikePost_present aff db postID userID r h
      (hv.dislikeIds r (List.mem_of_find?_eq_some h))]
    exact hv

theorem likePost_exclusive (aff : String → SqlValue) (db : DB) (postID : String)
    (userID : Int) (hv : SchemaValid db) (he : Exclusive db) :
    Exclusive (likePost aff db postID userID).2 := by
  cases h : db.Likes.find? (ReactionRow.isPair userID (aff postID)) with
  | none =>
    rw [likePost_absent aff db postID userID h]
    intro u p
    show pairCount (db.Likes ++ _) u p = 0 ∨ pairCount (db.Dislikes.filter _) u p = 0
    rw [pairCount_append_single, pairCount_delete]
    by_cases hp : userID = u ∧ aff postID = p
    · right; rw [if_pos hp]
    · rw [if_neg hp, if_neg hp]
      simpa using he u p
  | some r =>
    rw [likePost_present aff db postID userID r h (hv.likeIds r (List.mem_of_find?_eq_some h))]
    exact he

theorem dislikePost_exclusive (aff : String → SqlValue) (db : DB) (postID : String)
    (userID : Int) (hv : SchemaValid db) (he : Exclusive db) :
    Exclusive (dislikePost aff db postID userID).2 := by
  cases h : db.Dislikes.find? (ReactionRow.isPair userID (aff postID)) with
  | none =>
    rw [dislikePost_absent aff db postID userID h]
    intro u p
    show pairCount (db.Likes.filter _) u p = 0 ∨ pairCount (db.Dislikes ++ _) u p = 0
    rw [pairCount_append_single, pairCount_delete]
    by_cases hp : userID = u ∧ aff postID = p
    · left; rw [if_pos hp]
    · rw [if_neg hp, if_neg hp]
      simpa using he u p
  | some r =>
    rw [dislikePost_present aff db postID userID r h
      (hv.dislikeIds r (List.mem_of_find?_eq_some h))]
    exact he

/-- After `likePost` the pair has exactly one Like row, and the call reports
no error. -/
theorem likePost_count (aff : String → SqlValue) (db : DB) (postID : String)
    (userID : Int) (hv : SchemaValid db) :
    (likePost aff db postID userID).1 = none ∧
      pairCount (likePost aff db postID userID).2.Likes userID (aff postID) = 1 := by
  cases h : db.Likes.find? (ReactionRow.isPair userID (aff postID)) with
  | none =>
    rw [likePost_absent aff db postID userID h]
    refine ⟨rfl, ?_⟩
    show pairCount (db.Likes ++ _) userID (aff postID) = 1
    rw [pairCount_append_single, (find_none_iff_pairCount _ _ _).1 h]
    simp
  | some r =>
    rw [likePost_present aff db postID userID r h (hv.likeIds r (List.mem_of_find?_eq_some h))]
    refine ⟨rfl, ?_⟩
    have h1 := hv.likeUnique userID (aff postID)
    have h2 : pairCount db.Likes userID (aff postID) ≠ 0 := by
      intro hc
      rw [← find_none_iff_pairCount, h] at hc
      exact Option.some_ne_none r hc
    show pairCount db.Likes userID (aff postID) = 1
    omega

theorem dislikePost_count (aff : String → SqlValue) (db : DB) (postID : String)
    (userID : Int) (hv : SchemaValid db) :
    (dislikePost aff db postID userID).1 = none ∧
      pairCount (dislikePost aff db postID userID).2.Dislikes userID (aff postID) = 1 := by
  cases h : db.Dislikes.find? (ReactionRow.isPair userID (aff postID)) with
  | none =>
    rw [dislikePost_absent aff db postID userID h]
    refine ⟨rfl, ?_⟩
    show pairCount (db.Dislikes ++ _) userID (aff postID) = 1
    rw [pairCount_append_single, (find_none_iff_pairCount _ _ _).1 h]
    simp
  | some r =>
    rw [dislikePost_present aff db postID userID r h
      (hv.dislikeIds r (List.mem_of_find?_eq_some h))]
    refine ⟨rfl, ?_⟩
    have h1 := hv.dislikeUnique userID (aff postID)
    have h2 : pairCount db.Dislikes userID (aff postID) ≠ 0 := by
      intro hc
      rw [← find_none_iff_pairCount, h] at hc
      exact Option.some_ne_none r hc
    show pairCount db.Dislikes userID (aff postID) = 1
    omega

/-- A second call of `likePost` right after a first one changes nothing. -/
theorem likePost_again (aff : String → SqlValue) (db : DB) (postID : String)
    (userID : Int) (hv : SchemaValid db) :
    likePost aff (likePost aff db postID userID).2 postID userID =
      (none, (likePost aff db postID userID).2) := by
  have hv1 := likePost_schemaValid aff db postID userID hv
  have hc := (likePost_count aff db postID userID hv).2
  cases h : (likePost aff db postID userID).2.Likes.find?
      (ReactionRow.isPair userID (aff postID)) with
  | none =>
    rw [(find_none_iff_pairCount _ _ _).1 h] at hc
    exact absurd hc (by decide)
  | some r =>
    exact likePost_present aff _ postID userID r h (hv1.likeIds r (List.mem_of_find?_eq_some h))

theorem dislikePost_again (aff : String → SqlValue) (db : DB) (postID : String)
    (userID : Int) (hv : SchemaValid db) :
    dislikePost aff (dislikePost aff db postID userID).2 postID userID =
      (none, (dislikePost aff db postID userID).2) := by
  have hv1 := dislikePost_schemaValid aff db postID userID hv
  have hc := (dislikePost_count aff db postID userID hv).2
  cases h : (dislikePost aff db postID userID).2.Dislikes.find?
      (ReactionRow.isPair userID (aff postID)) with
  | none =>
    rw [(find_none_iff_pairCount _ _ _).1 h] at hc
    exact absurd hc (by decide)
  | some r =>
    exact dislikePost_present aff _ postID userID r h
      (hv1.dislikeIds r (List.mem_of_find?_eq_some h))

theorem registerUser_reactions (db : DB) (email username password : String) :
    (registerUser db email username password).2.Likes = db.Likes ∧
      (registerUser db email username password).2.Dislikes = db.Dislikes := by
  unfold registerUser DB.insertUser execResult
  split_ifs <;> simp

theorem createPost_reactions (db : DB) (now : Nat) (title content : String) (userID : Int) :
    (createPost db now title content userID).2.Likes = db.Likes ∧
      (createPost db now title content userID).2.Dislikes = db.Dislikes := by
  simp [createPost, DB.insertPost, execResult]

theorem createComment_reactions (aff : String → SqlValue) (db : DB) (now : Nat)
    (content postID : String) (userID : Int) :
    (createComment aff db now content postID userID).2.Likes = db.Likes ∧
      (createComment aff db now content postID userID).2.Dislikes = db.Dislikes := by
  simp [createComment, DB.insertComment, execResult]

theorem reactionCall_run_inv (aff : String → SqlValue) (db : DB) (c : ReactionCall)
    (h : SchemaValid db ∧ Exclusive db) :
    SchemaValid (c.run aff db) ∧ Exclusive (c.run aff db) := by
  cases c with
  | like postID userID =>
    exact ⟨likePost_schemaValid aff db postID userID h.1,
      likePost_exclusive aff db postID userID h.1 h.2⟩
  | dislike postID userID =>
    exact ⟨dislikePost_schemaValid aff db postID userID h.1,
      dislikePost_exclusive aff db postID userID h.1 h.2⟩

theorem runReactions_inv (aff : String → SqlValue) (calls : List ReactionCall) (db : DB)
    (h : SchemaValid db ∧ Exclusive db) :
    SchemaValid (runReactions aff calls db) ∧ Exclusive (runReactions aff calls db) := by
  induction calls generalizing db with
  | nil => exact h
  | cons c cs ih => exact ih (c.run aff db) (reactionCall_run_inv aff db c h)

theorem op_run_inv (aff : String → SqlValue) (db : DB) (op : Op)
    (h : SchemaValid db ∧ Exclusive db) :
    SchemaValid (op.run aff db) ∧ Exclusive (op.run aff db) := by
  cases op with
  | register email username password =>
    have e := registerUser_reactions db email username password
    exact ⟨schemaValid_of_tables h.1 e.1 e.2, exclusive_of_tables h.2 e.1 e.2⟩
  | createPost now title content userID =>
    have e := createPost_reactions db now title content userID
    exact ⟨schemaValid_of_tables h.1 e.1 e.2, exclusive_of_tables h.2 e.1 e.2⟩
  | createComment now content postID userID =>
    have e := createComment_reactions aff db now content postID userID
    exact ⟨schemaValid_of_tables h.1 e.1 e.2, exclusive_of_tables h.2 e.1 e.2⟩
  | like postID userID =>
    exact ⟨likePost_schemaValid aff db postID userID h.1,
      likePost_exclusive aff db postID userID h.1 h.2⟩
  | dislike postID userID =>
    exact ⟨dislikePost_schemaValid aff db postID userID h.1,
      dislikePost_exclusive aff db postID userID h.1 h.2⟩

theorem runOps_inv (aff : String → SqlValue) (ops : List Op) (db : DB)
    (h : SchemaValid db ∧ Exclusive db) :
    SchemaValid (runOps aff ops db) ∧ Exclusive (runOps aff ops db) := by
  induction ops generalizing db with
  | nil => exact h
  | cons op rest ih => exact ih (op.run aff db) (op_run_inv aff db op h)

/-! ## Reactions: the claims -/

/-- C1. In every state reached from the empty database by a sequence of
`likePost` and `dislikePost` calls, every (user, post) pair has at most one
Like row, at most one Dislike row and never both: its state is one of none,
liked, disliked. -/
theorem reactions_mutually_exclusive (aff : String → SqlValue) (calls : List ReactionCall)
    (user : Int) (post : SqlValue) :
    pairCount (runReactions aff calls emptyDB).Likes user post ≤ 1 ∧
    pairCount (runReactions aff calls emptyDB).Dislikes user post ≤ 1 ∧
    ¬ (0 < pairCount (runReactions aff calls emptyDB).Likes user post ∧
       0 < pairCount (runReactions aff calls emptyDB).Dislikes user post) ∧
    ((pairCount (runReactions aff calls emptyDB).Likes user post = 0 ∧
        pairCount (runReactions aff calls emptyDB).Dislikes user post = 0) ∨
     (pairCount (runReactions aff calls emptyDB).Likes user post = 1 ∧
        pairCount (runReactions aff calls emptyDB).Dislikes user post = 0) ∨
     (pairCount (runReactions aff calls emptyDB).Likes user post = 0 ∧
        pairCount (runReactions aff calls emptyDB).Dislikes user post = 1)) := by
  obtain ⟨hv, he⟩ := runReactions_inv aff calls emptyDB ⟨emptyDB_schemaValid, emptyDB_exclusive⟩
  have h1 := hv.likeUnique user post
  have h2 := hv.dislikeUnique user post
  have h3 := he user post
  omega

/-- C2. In every state reached from the empty database by calls of the
writing functions, `likePost` followed by `dislikePost` on the same pair runs
without error and leaves no Like row and exactly one Dislike row for the
pair; `dislikePost` followed by `likePost` leaves exactly one Like row and no
Dislike row. -/
theorem like_then_dislike (aff : String → SqlValue) (ops : List Op) (postID : String)
    (userID : Int) :
    ((likePost aff (runOps aff ops emptyDB) postID userID).1 = none ∧
     (dislikePost aff (likePost aff (runOps aff ops emptyDB) postID userID).2 postID userID).1
        = none ∧
     pairCount (dislikePost aff (likePost aff (runOps aff ops emptyDB) postID userID).2
        postID userID).2.Likes userID (aff postID) = 0 ∧
     pairCount (dislikePost aff (likePost aff (runOps aff ops emptyDB) postID userID).2
        postID userID).2.Dislikes userID (aff postID) = 1) ∧
    ((dislikePost aff (runOps aff ops emptyDB) postID userID).1 = none ∧
     (likePost aff (dislikePost aff (runOps aff ops emptyDB) postID userID).2 postID userID).1
        = none ∧
     pairCount (likePost aff (dislikePost aff (runOps aff ops emptyDB) postID userID).2
        postID userID).2.Likes userID (aff postID) = 1 ∧
     pairCount (likePost aff (dislikePost aff (runOps aff ops emptyDB) postID userID).2
        postID userID).2.Dislikes userID (aff postID) = 0) := by
  obtain ⟨hv, he⟩ := runOps_inv aff ops emptyDB ⟨emptyDB_schemaValid, emptyDB_exclusive⟩
  constructor
  · have hv1 := likePost_schemaValid aff _ postID userID hv
    have he1 := likePost_exclusive aff _ postID userID hv he
    have hc := dislikePost_count aff _ postID userID hv1
    have he2 := dislikePost_exclusive aff _ postID userID hv1 he1 userID (aff postID)
    refine ⟨(likePost_count aff _ postID userID hv).1, hc.1, ?_, hc.2⟩
    omega
  · have hv1 := dislikePost_schemaValid aff _ postID userID hv
    have he1 := dislikePost_exclusive aff _ postID userID hv he
    have hc := likePost_count aff _ postID userID hv1
    have he2 := likePost_exclusive aff _ postID userID hv1 he1 userID (aff postID)
    refine ⟨(dislikePost_count aff _ postID userID hv).1, hc.1, hc.2, ?_⟩
    omega

/-- C6. On every database state that satisfies the schema (rowids other than
0, unique pairs), a second `likePost` on the same pair returns no error and
leaves the whole state as the first call left it, with exactly one Like row
for the pair; the same holds for `dislikePost`. -/
theorem reaction_idempotent (aff : String → SqlValue) (db : DB) (postID : String)
    (userID : Int) (hv : SchemaValid db) :
    (likePost aff (likePost aff db postID userID).2 postID userID =
        (none, (likePost aff db postID userID).2) ∧
      pairCount (likePost aff (likePost aff db postID userID).2 postID userID).2.Likes
        userID (aff postID) = 1) ∧
    (dislikePost aff (dislikePost aff db postID userID).2 postID userID =
        (none, (dislikePost aff db postID userID).2) ∧
      pairCount (dislikePost aff (dislikePost aff db postID userID).2 postID userID).2.Dislikes
        userID (aff postID) = 1) := by
  refine ⟨⟨likePost_again aff db postID userID hv, ?_⟩,
    ⟨dislikePost_again aff db postID userID hv, ?_⟩⟩
  · rw [likePost_again aff db postID userID hv]
    exact (likePost_count aff db postID userID hv).2
  · rw [dislikePost_again aff db postID userID hv]
    exact (dislikePost_count aff db postID userID hv).2

/-- Witness of C6: the empty database, post "1", user 1. -/
theorem reaction_idempotent_witness :
    SchemaValid emptyDB ∧
    (likePost decimalAffinity (likePost decimalAffinity emptyDB "1" 1).2 "1" 1 =
        (none, (likePost decimalAffinity emptyDB "1" 1).2) ∧
      pairCount (likePost decimalAffinity (likePost decimalAffinity emptyDB "1" 1).2 "1" 1).2.Likes
        1 (decimalAffinity "1") = 1) ∧
    (dislikePost decimalAffinity (dislikePost decimalAffinity emptyDB "1" 1).2 "1" 1 =
        (none, (dislikePost decimalAffinity emptyDB "1" 1).2) ∧
      pairCount (dislikePost decimalAffinity
        (dislikePost decimalAffinity emptyDB "1" 1).2 "1" 1).2.Dislikes
        1 (decimalAffinity "1") = 1) :=
  ⟨emptyDB_schemaValid, reaction_idempotent decimalAffinity emptyDB "1" 1 emptyDB_schemaValid⟩

/-! ## Authorization gate -/

/-- C3. A request whose "user" cookie is "guest" gets 403 from
`authorize next` whatever `next` is, and the database is left as it was, on
each of the four gated routes of `main`; for any other session value, an
absent cookie (read as the empty string) included, `authorize next` is `next`. -/
theorem authorize_gate (aff : String → SqlValue) (next : Handler) (r : Request) (now : Nat)
    (db : DB) :
    (getSession r "user" = "guest" →
      authorize next r now db =
          (httpError Response.fresh "Guest users cannot perform this action" 403, db) ∧
        (authorize next r now db).1.status = 403 ∧
        (∀ path ∈ ["/createPost", "/like", "/dislike", "/comment"],
          ∃ h, (routes aff).lookup path = some h ∧ (h r now db).1.status = 403 ∧
            (h r now db).2 = db)) ∧
    (getSession r "user" ≠ "guest" → authorize next r now db = next r now db) ∧
    (r.Cookie "user" = none →
      getSession r "user" = "" ∧ authorize next r now db = next r now db) := by
  refine ⟨?_, ?_, ?_⟩
  · intro hg
    refine ⟨by simp [authorize, hg], by simp [authorize, hg, httpError], ?_⟩
    intro path hpath
    simp only [List.mem_cons, List.mem_singleton, List.not_mem_nil, or_false] at hpath
    rcases hpath with rfl | rfl | rfl | rfl
    · exact ⟨authorize createPostHandler, by simp [routes, List.lookup], by simp [authorize, hg, httpError],
        by simp [authorize, hg]⟩
    · exact ⟨authorize (likeHandler aff), by simp [routes, List.lookup], by simp [authorize, hg, httpError],
        by simp [authorize, hg]⟩
    · exact ⟨authorize (dislikeHandler aff), by simp [routes, List.lookup], by simp [authorize, hg, httpError],
        by simp [authorize, hg]⟩
    · exact ⟨authorize (commentHandler aff), by simp [routes, List.lookup], by simp [authorize, hg, httpError],
        by simp [authorize, hg]⟩
  · intro hg
    simp [authorize, hg]
  · intro hc
    have hs : getSession r "user" = "" := by simp [getSession, hc]
    refine ⟨hs, ?_⟩
    simp [authorize, hs]

/-- Witness of C3: a guest request and a request without cookie, in front of
`createPostHandler`. -/
theorem authorize_gate_witness :
    (getSession { Method := "POST", Form := [("title", "t"), ("content", "c")],
                  Cookies := [("user", "guest")] } "user" = "guest" ∧
      authorize createPostHandler
          { Method := "POST", Form := [("title", "t"), ("content", "c")],
            Cookies := [("user", "guest")] } 0 emptyDB =
        (httpError Response.fresh "Guest users cannot perform this action" 403, emptyDB)) ∧
    (getSession { Method := "POST", Form := [("title", "t"), ("content", "c")],
                  Cookies := [] } "user" ≠ "guest" ∧
      authorize createPostHandler
          { Method := "POST", Form := [("title", "t"), ("content", "c")], Cookies := [] }
          0 emptyDB =
        createPostHandler
          { Method := "POST", Form := [("title", "t"), ("content", "c")], Cookies := [] }
          0 emptyDB) :=
  ⟨⟨by decide,
    ((authorize_gate decimalAffinity createPostHandler
      { Method := "POST", Form := [("title", "t"), ("content", "c")],
        Cookies := [("user", "guest")] } 0 emptyDB).1 (by decide)).1⟩,
   ⟨by decide,
    (authorize_gate decimalAffinity createPostHandler
      { Method := "POST", Form := [("title", "t"), ("content", "c")], Cookies := [] }
      0 emptyDB).2.1 (by decide)⟩⟩

/-! ## Auth component: the claims -/

theorem selectCredentials_none_iff (db : DB) (email : String) :
    db.selectCredentials email = none ↔ ∀ u ∈ db.Users, u.email ≠ email := by
  simp [DB.selectCredentials, List.find?_eq_none]

/-- With unique emails, the row the credential query returns is the stored
row of that email. -/
theorem selectCredentials_of_mem (db : DB) (email : String)
    (huniq : db.Users.Pairwise (fun a b => a.email ≠ b.email)) (u : UserRow)
    (hu : u ∈ db.Users) (he : u.email = email) :
    db.selectCredentials email = some (u.email, u.password) := by
  unfold DB.selectCredentials
  cases h : db.Users.find? (fun u => decide (u.email = email)) with
  | none =>
    rw [List.find?_eq_none] at h
    exact absurd (by simpa using he) (h u hu)
  | some v =>
    have hv : v.email = email := by simpa using List.find?_some h
    have hmem := List.mem_of_find?_eq_some h
    have heq : v = u := by
      by_contra hne
      exact huniq.forall (fun _ _ hab => Ne.symm hab) hmem hu hne (hv.trans he.symm)
    simp [heq]

/-- C4. `authenticateUser` fails with "user not found" when no stored user
has the email, with "invalid password" when the stored password of that email
differs from the given one, and returns `(true, nil)` otherwise; it succeeds
exactly when the stored password of that email is the given one, and it
leaves the database as it was. -/
theorem authenticateUser_spec (db : DB) (email password : String) :
    ((∀ u ∈ db.Users, u.email ≠ email) →
      authenticateUser db email password = ((false, some (.errorf "user not found")), db)) ∧
    (db.Users.Pairwise (fun a b => a.email ≠ b.email) →
      ∀ u ∈ db.Users, u.email = email →
        (u.password ≠ password →
          authenticateUser db email password =
            ((false, some (.errorf "invalid password")), db)) ∧
        (u.password = password →
          authenticateUser db email password = ((true, none), db)) ∧
        ((authenticateUser db email password).1.1 = true ↔ u.password = password)) ∧
    ((authenticateUser db email password).1.1 = true ↔
      ∃ row, db.selectCredentials email = some row ∧ row.2 = password) ∧
    ((authenticateUser db email password).1.1 = true ↔
      (authenticateUser db email password).1.2 = none) ∧
    (authenticateUser db email password).2 = db := by
  refine ⟨?_, ?_, ?_, ?_, ?_⟩
  · intro h
    simp [authenticateUser, (selectCredentials_none_iff db email).2 h]
  · intro huniq u hu he
    have hsel := selectCredentials_of_mem db email huniq u hu he
    refine ⟨?_, ?_, ?_⟩
    · intro hp
      simp [authenticateUser, hsel, Ne.symm hp]
    · intro hp
      simp [authenticateUser, hsel, hp]
    · by_cases hp : password = u.password
      · simp [authenticateUser, hsel, hp]
      · simp [authenticateUser, hsel, hp, Ne.symm hp]
  · unfold authenticateUser
    cases h : db.selectCredentials email with
    | none => simp
    | some row =>
      obtain ⟨e, pw⟩ := row
      by_cases hp : password = pw
      · simp [hp]
      · simp [hp, Ne.symm hp]
  · unfold authenticateUser
    cases h : db.selectCredentials email with
    | none => simp
    | some row =>
      obtain ⟨e, pw⟩ := row
      by_cases hp : password = pw <;> simp [hp]
  · unfold authenticateUser
    cases h : db.selectCredentials email with
    | none => rfl
    | some row =>
      obtain ⟨e, pw⟩ := row
      by_cases hp : password = pw <;> simp [hp]

/-- Witness of C4: one stored user, tried with an unknown email, a wrong
password and the right password. -/
theorem authenticateUser_spec_witness :
    ((∀ u ∈ (registerUser emptyDB "a@x.com" "alice" "pw1").2.Users, u.email ≠ "b@x.com") ∧
      authenticateUser (registerUser emptyDB "a@x.com" "alice" "pw1").2 "b@x.com" "pw1" =
        ((false, some (.errorf "user not found")),
          (registerUser emptyDB "a@x.com" "alice" "pw1").2)) ∧
    authenticateUser (registerUser emptyDB "a@x.com" "alice" "pw1").2 "a@x.com" "bad" =
      ((false, some (.errorf "invalid password")),
        (registerUser emptyDB "a@x.com" "alice" "pw1").2) ∧
    authenticateUser (registerUser emptyDB "a@x.com" "alice" "pw1").2 "a@x.com" "pw1" =
      ((true, none), (registerUser emptyDB "a@x.com" "alice" "pw1").2) :=
  ⟨⟨by decide,
    (authenticateUser_spec (registerUser emptyDB "a@x.com" "alice" "pw1").2 "b@x.com" "pw1").1
      (by decide)⟩,
   ((authenticateUser_spec (registerUser emptyDB "a@x.com" "alice" "pw1").2 "a@x.com"
      "bad").2.1 (by decide) ⟨1, "a@x.com", "alice", "pw1"⟩ (by decide) rfl).1 (by decide),
   ((authenticateUser_spec (registerUser emptyDB "a@x.com" "alice" "pw1").2 "a@x.com"
      "pw1").2.1 (by decide) ⟨1, "a@x.com", "alice", "pw1"⟩ (by decide) rfl).2.1 rfl⟩

/-- C5 as stated fails: a registration whose email differs from every stored
email is refused when its username is taken, and adds no row. -/
theorem registerUser_fresh_email_refused :
    (∀ u ∈ (registerUser emptyDB "a@x.com" "alice" "pw1").2.Users, u.email ≠ "b@x.com") ∧
    registerUser (registerUser emptyDB "a@x.com" "alice" "pw1").2 "b@x.com" "alice" "pw2" =
      (some (.uniqueConstraint "Users.username"),
        (registerUser emptyDB "a@x.com" "alice" "pw1").2) := by
  decide

/-- C5, amended. `registerUser` fails with a constraint violation and leaves
the database unchanged when a stored user has the same email or the same
username; a second registration with the email of a successful first one
fails; a registration whose email and username both differ from every stored
one succeeds and appends exactly one row holding the given email, username
and password. -/
theorem registerUser_spec (db : DB) (email username password : String) :
    ((∃ u ∈ db.Users, u.email = email ∨ u.username = username) →
      ∃ c, registerUser db email username password = (some (.uniqueConstraint c), db)) ∧
    ((registerUser db email username password).1 = none →
      ∀ username2 password2, ∃ c,
        registerUser (registerUser db email username password).2 email username2 password2 =
          (some (.uniqueConstraint c), (registerUser db email username password).2)) ∧
    ((∀ u ∈ db.Users, u.email ≠ email ∧ u.username ≠ username) →
      registerUser db email username password =
        (none, { db with
          Users := db.Users ++
            [{ id := nextRowid db.seqUsers (db.Users.map (fun u => u.id)), email := email,
               username := username, password := password }],
          seqUsers := nextRowid db.seqUsers (db.Users.map (fun u => u.id)) })) := by
  have hdup : ∀ (d : DB) (e n p : String), (∃ u ∈ d.Users, u.email = e ∨ u.username = n) →
      ∃ c, registerUser d e n p = (some (.uniqueConstraint c), d) := by
    intro d e n p h
    obtain ⟨u, hu, hor⟩ := h
    unfold registerUser DB.insertUser
    by_cases h1 : d.Users.any (fun u => decide (u.email = e)) = true
    · exact ⟨"Users.email", by simp [h1, execResult]⟩
    · have h2 : d.Users.any (fun u => decide (u.username = n)) = true := by
        rcases hor with he | hn
        · exact absurd (List.any_eq_true.2 ⟨u, hu, by simpa using he⟩) h1
        · exact List.any_eq_true.2 ⟨u, hu, by simpa using hn⟩
      exact ⟨"Users.username", by simp [h1, h2, execResult]⟩
  have hfresh : ∀ (d : DB) (e n p : String), (∀ u ∈ d.Users, u.email ≠ e ∧ u.username ≠ n) →
      registerUser d e n p =
        (none, { d with
          Users := d.Users ++
            [{ id := nextRowid d.seqUsers (d.Users.map (fun u => u.id)), email := e,
               username := n, password := p }],
          seqUsers := nextRowid d.seqUsers (d.Users.map (fun u => u.id)) }) := by
    intro d e n p h
    have h1 : d.Users.any (fun u => decide (u.email = e)) = false := by
      rw [Bool.eq_false_iff]
      intro hc
      obtain ⟨u, hu, hp⟩ := List.any_eq_true.1 hc
      exact (h u hu).1 (by simpa using hp)
    have h2 : d.Users.any (fun u => decide (u.username = n)) = false := by
      rw [Bool.eq_false_iff]
      intro hc
      obtain ⟨u, hu, hp⟩ := List.any_eq_true.1 hc
      exact (h u hu).2 (by simpa using hp)
    simp [registerUser, DB.insertUser, h1, h2, execResult]
  refine ⟨hdup db email username password, ?_, hfresh db email username password⟩
  intro hok username2 password2
  apply hdup
  by_cases hf : ∀ u ∈ db.Users, u.email ≠ email ∧ u.username ≠ username
  · rw [hfresh db email username password hf]
    exact ⟨{ id := nextRowid db.seqUsers (db.Users.map (fun u => u.id)), email := email,
              username := username, password := password }, by simp, Or.inl rfl⟩
  · have hex : ∃ u ∈ db.Users, u.email = email ∨ u.username = username := by
      by_contra hc
      apply hf
      intro u hu
      exact ⟨fun h => hc ⟨u, hu, Or.inl h⟩, fun h => hc ⟨u, hu, Or.inr h⟩⟩
    obtain ⟨c, hc⟩ := hdup db email username password hex
    rw [hc] at hok
    exact absurd hok (by simp)

/-- Witness of C5: a duplicate email, two registrations with one email, and
a fresh registration on the empty database. -/
theorem registerUser_spec_witness :
    (∃ c, registerUser (registerUser emptyDB "a@x.com" "alice" "pw1").2 "a@x.com" "bob" "pw2" =
      (some (.uniqueConstraint c), (registerUser emptyDB "a@x.com" "alice" "pw1").2)) ∧
    (∃ c, registerUser (registerUser emptyDB "a@x.com" "alice" "pw1").2 "a@x.com" "carol" "pw3" =
      (some (.uniqueConstraint c), (registerUser emptyDB "a@x.com" "alice" "pw1").2)) ∧
    registerUser emptyDB "a@x.com" "alice" "pw1" =
      (none, { emptyDB with
        Users := emptyDB.Users ++
          [{ id := nextRowid emptyDB.seqUsers (emptyDB.Users.map (fun u => u.id)),
             email := "a@x.com", username := "alice", password := "pw1" }],
        seqUsers := nextRowid emptyDB.seqUsers (emptyDB.Users.map (fun u => u.id)) }) :=
  ⟨(registerUser_spec (registerUser emptyDB "a@x.com" "alice" "pw1").2 "a@x.com" "bob"
      "pw2").1 ⟨⟨1, "a@x.com", "alice", "pw1"⟩, by decide, Or.inl rfl⟩,
   (registerUser_spec emptyDB "a@x.com" "alice" "pw1").2.1 (by decide) "carol" "pw3",
   (registerUser_spec emptyDB "a@x.com" "alice" "pw1").2.2 (by decide)⟩

/-! ## Content component: ordering -/

theorem mem_orderedInsert {α : Type} (le : α → α → Bool) (x y : α) (l : List α) :
    y ∈ orderedInsert le x l ↔ y = x ∨ y ∈ l := by
  induction l with
  | nil => simp [orderedInsert]
  | cons a t ih =>
    unfold orderedInsert
    split
    · simp
    · simp only [List.mem_cons, ih]
      tauto

theorem orderedInsert_pairwise {α : Type} (le : α → α → Bool)
    (htotal : ∀ a b, le a b = true ∨ le b a = true)
    (htrans : ∀ a b c, le a b = true → le b c = true → le a c = true)
    (x : α) (l : List α) (h : l.Pairwise (fun a b => le a b = true)) :
    (orderedInsert le x l).Pairwise (fun a b => le a b = true) := by
  induction l with
  | nil => simp [orderedInsert]
  | cons a t ih =>
    rw [List.pairwise_cons] at h
    unfold orderedInsert
    split
    · rename_i hxa
      refine List.pairwise_cons.2 ⟨?_, List.pairwise_cons.2 h⟩
      intro b hb
      rcases List.mem_cons.1 hb with rfl | hb
      · exact hxa
      · exact htrans x a b hxa (h.1 b hb)
    · rename_i hxa
      have hax : le a x = true := by
        rcases htotal a x with h1 | h1
        · exact h1
        · exact absurd h1 hxa
      refine List.pairwise_cons.2 ⟨?_, ih h.2⟩
      intro b hb
      rcases (mem_orderedInsert le x b t).1 hb with rfl | hb
      · exact hax
      · exact h.1 b hb

theorem orderBy_pairwise {α : Type} (le : α → α → Bool)
    (htotal : ∀ a b, le a b = true ∨ le b a = true)
    (htrans : ∀ a b c, le a b = true → le b c = true → le a c = true) (rows : List α) :
    (orderBy le rows).Pairwise (fun a b => le a b = true) := by
  induction rows with
  | nil => simp [orderBy]
  | cons a t ih => exact orderedInsert_pairwise le htotal htrans a _ ih

theorem fetchComments_ascending (db : DB) (postID : Int) :
    (fetchComments db postID).Pairwise (fun a b => a.CreatedAt ≤ b.CreatedAt) := by
  have h := orderBy_pairwise (fun a b : Comment => decide (a.CreatedAt ≤ b.CreatedAt))
    (fun a b => by simpa using Nat.le_total a.CreatedAt b.CreatedAt)
    (fun a b c hab hbc => by simp only [decide_eq_true_eq] at *; omega)
    ((db.Comments.filter (fun c => decide (c.post_id = .integer postID))).flatMap fun c =>
      (db.Users.filter (fun u => decide (c.user_id = u.id))).map fun u =>
        { Content := c.content, Username := u.username, CreatedAt := c.created_at })
  simpa [fetchComments] using h

theorem selectPosts_descending (db : DB) :
    db.selectPosts.Pairwise (fun a b => b.CreatedAt ≤ a.CreatedAt) := by
  have h := orderBy_pairwise (fun a b : Post => decide (b.CreatedAt ≤ a.CreatedAt))
    (fun a b => by simpa using Nat.le_total b.CreatedAt a.CreatedAt)
    (fun a b c hab hbc => by simp only [decide_eq_true_eq] at *; omega)
    (db.Posts.flatMap fun p =>
      (db.Users.filter (fun u => decide (p.user_id = u.id))).map fun u =>
        { ID := p.id, Title := p.title, Content := p.content, Username := u.username,
          CreatedAt := p.created_at,
          Likes := (db.Likes.filter (fun l => decide (l.post_id = .integer p.id))).length,
          Dislikes := (db.Dislikes.filter (fun l => decide (l.post_id = .integer p.id))).length,
          Comments := [] })
  simpa [DB.selectPosts] using h

theorem fetchPosts_sameSecondDB :
    fetchPosts sameSecondDB =
      [{ ID := 1, Title := "first", Content := "x", Username := "alice", CreatedAt := 5,
         Likes := 0, Dislikes := 0,
         Comments := [{ Content := "c1", Username := "alice", CreatedAt := 6 },
                      { Content := "c2", Username := "alice", CreatedAt := 6 }] },
       { ID := 2, Title := "second", Content := "y", Username := "alice", CreatedAt := 5,
         Likes := 0, Dislikes := 0, Comments := [] }] := by
  decide

/-- C7 as stated fails: two posts made within the same second come back with
equal creation times, and so do two comments of one post, so neither order
is strict. -/
theorem fetchPosts_not_strict :
    ¬ (fetchPosts sameSecondDB).Chain' (fun a b => b.CreatedAt < a.CreatedAt) ∧
    ¬ (∀ post ∈ fetchPosts sameSecondDB,
        post.Comments.Chain' (fun a b => a.CreatedAt < b.CreatedAt)) := by
  rw [fetchPosts_sameSecondDB]
  simp

/-- C7, amended. For every database state `fetchPosts` returns the posts in
descending creation-time order that need not be strict (no post is older than
a post after it), and the comments of every returned post in ascending
creation-time order that need not be strict. -/
theorem fetchPosts_ordered (db : DB) :
    (fetchPosts db).Pairwise (fun a b => b.CreatedAt ≤ a.CreatedAt) ∧
    (fetchPosts db).Chain' (fun a b => b.CreatedAt ≤ a.CreatedAt) ∧
    ∀ post ∈ fetchPosts db,
      post.Comments.Pairwise (fun a b => a.CreatedAt ≤ b.CreatedAt) ∧
      post.Comments.Chain' (fun a b => a.CreatedAt ≤ b.CreatedAt) := by
  have hp : (fetchPosts db).Pairwise (fun a b => b.CreatedAt ≤ a.CreatedAt) := by
    unfold fetchPosts
    rw [List.pairwise_map]
    exact selectPosts_descending db
  refine ⟨hp, List.Pairwise.chain' hp, ?_⟩
  intro post hpost
  unfold fetchPosts at hpost
  obtain ⟨row, _, rfl⟩ := List.mem_map.1 hpost
  exact ⟨fetchComments_ascending db row.ID, List.Pairwise.chain' (fetchComments_ascending db row.ID)⟩

/-! ## End-to-end scenario -/

theorem validCookieValueByte_not_quote {b : Char} (h : validCookieValueByte b = true) :
    b.toNat ≠ 0x22 := by
  simp only [validCookieValueByte, Bool.and_eq_true, decide_eq_true_eq] at h
  exact h.1.1.2

/-- A cookie value written by `http.SetCookie` is read back as the value with
its invalid bytes dropped. -/
theorem parseCookieValue_sanitizeCookieValue (v : String) :
    parseCookieValue (sanitizeCookieValue v) = some (sanitizeOrWarn validCookieValueByte v) := by
  have hall : (v.data.filter validCookieValueByte).all validCookieValueByte = true := by
    rw [List.all_eq_true]
    intro b hb
    exact (List.mem_filter.1 hb).2
  unfold sanitizeCookieValue sanitizeOrWarn
  simp only
  split
  · have hq : (Char.ofNat 0x22).toNat = 0x22 := by decide
    have hlast : (Char.ofNat 0x22 :: (v.data.filter validCookieValueByte ++ [Char.ofNat 0x22])).getLast?
        = some (Char.ofNat 0x22) := by
      rw [← List.cons_append, List.getLast?_concat]
    unfold parseCookieValue
    simp only [List.head?_cons, Option.map_some', hlast, hq, List.length_cons,
      List.length_append, List.length_singleton, List.drop_succ_cons, List.drop_zero,
      List.dropLast_concat]
    have hlen : 1 < (v.data.filter validCookieValueByte).length + 1 + 1 := by omega
    simp only [List.length_nil, Nat.zero_add, hlen, and_self, if_true, hall]
  · unfold parseCookieValue
    have hcond : ¬ (1 < (v.data.filter validCookieValueByte).length ∧
        (v.data.filter validCookieValueByte).head?.map Char.toNat = some 0x22 ∧
        (v.data.filter validCookieValueByte).getLast?.map Char.toNat = some 0x22) := by
      rintro ⟨_, hhead, _⟩
      cases hf : v.data.filter validCookieValueByte with
      | nil => rw [hf] at hhead; simp at hhead
      | cons b t =>
        rw [hf] at hhead
        simp only [List.head?_cons, Option.map_some', Option.some.injEq] at hhead
        have hb : b ∈ v.data.filter validCookieValueByte := by rw [hf]; exact List.mem_cons_self b t
        exact validCookieValueByte_not_quote (List.mem_filter.1 hb).2 hhead
    simp only
    rw [if_neg hcond, if_pos hall]

/-- C8 as stated fails: a user registered with the email "guest" logs in,
the session cookie reads "guest", the gate of `/createPost` answers 403 and
no post is listed; the same happens for the email "guest;", whose semicolon
the cookie cannot carry. -/
theorem scenario_guest_email :
    scenario "guest" "alice" "pw1" "Hello" "World" 0 =
      (none,
       { status := 303, location := some "/forum", cookies := [("user", "guest")],
         body := .empty },
       { status := 403, location := none, cookies := [],
         body := .text "Guest users cannot perform this action\n" },
       []) ∧
    scenario "guest;" "alice" "pw1" "Hello" "World" 0 =
      (none,
       { status := 303, location := some "/forum", cookies := [("user", "guest")],
         body := .empty },
       { status := 403, location := none, cookies := [],
         body := .text "Guest users cannot perform this action\n" },
       []) := by
  decide

/-- C8, amended. For every email whose session value (the email with the
bytes a cookie value cannot carry dropped) is not "guest", every username,
password, title and content: on an empty database, registering the user
succeeds, logging in with the same email and password succeeds and sets the
session cookie, the `/createPost` request of that client is redirected to
/forum, and `fetchPosts` then returns exactly one post, with that title and
content, 0 likes, 0 dislikes, no comments and the registered username as
author. -/
theorem scenario_one_post (email username password title content : String) (now : Nat)
    (hguest : sanitizeOrWarn validCookieValueByte email ≠ "guest") :
    scenario email username password title content now =
      (none,
       { status := 303, location := some "/forum",
         cookies := [("user", sanitizeCookieValue email)], body := .empty },
       { status := 303, location := some "/forum", cookies := [], body := .empty },
       [{ ID := 1, Title := title, Content := content, Username := username,
          CreatedAt := now, Likes := 0, Dislikes := 0, Comments := [] }]) := by
  simp [scenario, registerUser, DB.insertUser, execResult, emptyDB, nextRowid,
    logInPageHandler, authenticateUser, DB.selectCredentials, Request.FormValue,
    List.lookup, setSession, httpRedirect, Response.fresh, authorize, getSession,
    Request.Cookie, echoCookies, parseCookieValue_sanitizeCookieValue, hguest,
    createPostHandler, createPost, DB.insertPost, fetchPosts,
    DB.selectPosts, fetchComments, orderBy, orderedInsert]

/-- Witness of C8: a@x.com / alice / pw1 posting "Hello" / "World". -/
theorem scenario_one_post_witness :
    sanitizeOrWarn validCookieValueByte "a@x.com" ≠ "guest" ∧
    scenario "a@x.com" "alice" "pw1" "Hello" "World" 0 =
      (none,
       { status := 303, location := some "/forum",
         cookies := [("user", sanitizeCookieValue "a@x.com")], body := .empty },
       { status := 303, location := some "/forum", cookies := [], body := .empty },
       [{ ID := 1, Title := "Hello", Content := "World", Username := "alice",
          CreatedAt := 0, Likes := 0, Dislikes := 0, Comments := [] }]) :=
  ⟨by decide, scenario_one_post "a@x.com" "alice" "pw1" "Hello" "World" 0 (by decide)⟩

/-! ## Referential integrity -/

/-- C9 fails on the code. On the empty database `createPost` with author id
1, as `/createPost` issues it, returns no error and stores a post whose
author is no user; `createComment` on post "7" with author id 1 returns no
error and stores a comment whose post and author do not exist.  The states
reached break referential integrity. -/
theorem dangling_references :
    createPostHandler
        { Method := "POST", Form := [("title", "t"), ("content", "c")], Cookies := [] }
        0 emptyDB =
      ({ status := 303, location := some "/forum", cookies := [], body := .empty },
       { emptyDB with
         Posts := [{ id := 1, title := "t", content := "c", user_id := 1, created_at := 0 }],
         seqPosts := 1 }) ∧
    createPost emptyDB 0 "t" "c" 1 =
      (none, { emptyDB with
         Posts := [{ id := 1, title := "t", content := "c", user_id := 1, created_at := 0 }],
         seqPosts := 1 }) ∧
    createComment decimalAffinity emptyDB 0 "hi" "7" 1 =
      (none, { emptyDB with
         Comments := [{ id := 1, content := "hi", user_id := 1, post_id := .integer 7,
                        created_at := 0 }],
         seqComments := 1 }) ∧
    ¬ ReferentialIntegrity (runOps decimalAffinity [.createPost 0 "t" "c" 1] emptyDB) ∧
    ¬ ReferentialIntegrity (runOps decimalAffinity [.createComment 0 "hi" "7" 1] emptyDB) := by
  refine ⟨by decide, by decide, by decide, ?_, ?_⟩
  · intro h
    have hu : (runOps decimalAffinity [.createPost 0 "t" "c" 1] emptyDB).Users = [] := by
      decide
    obtain ⟨u, hmem, _⟩ := h.1 ⟨1, "t", "c", 1, 0⟩ (by decide)
    rw [hu] at hmem
    exact List.not_mem_nil u hmem
  · intro h
    have hu : (runOps decimalAffinity [.createComment 0 "hi" "7" 1] emptyDB).Users = [] := by
      decide
    obtain ⟨u, hmem, _⟩ := (h.2 ⟨1, "hi", 1, .integer 7, 0⟩ (by decide)).1
    rw [hu] at hmem
    exact List.not_mem_nil u hmem

/-! ## The acting user -/

theorem likePost_rows (aff : String → SqlValue) (db : DB) (postID : String) (userID : Int) :
    ∀ l ∈ (likePost aff db postID userID).2.Likes, l ∈ db.Likes ∨ l.user_id = userID := by
  intro l hl
  unfold likePost DB.insertLike DB.deleteDislike at hl
  simp only at hl
  split_ifs at hl
  · exact Or.inl hl
  · simp only [List.mem_append, List.mem_singleton] at hl
    rcases hl with hl | rfl
    · exact Or.inl hl
    · exact Or.inr rfl
  · exact Or.inl hl

theorem dislikePost_rows (aff : String → SqlValue) (db : DB) (postID : String)
    (userID : Int) :
    ∀ l ∈ (dislikePost aff db postID userID).2.Dislikes,
      l ∈ db.Dislikes ∨ l.user_id = userID := by
  intro l hl
  unfold dislikePost DB.insertDislike DB.deleteLike at hl
  simp only at hl
  split_ifs at hl
  · exact Or.inl hl
  · simp only [List.mem_append, List.mem_singleton] at hl
    rcases hl with hl | rfl
    · exact Or.inl hl
    · exact Or.inr rfl
  · exact Or.inl hl

/-- C10. Two requests to a gated route with the same method and form values
and any two session cookies other than "guest" give the same response and
the same database state.  A POST to `/createPost` or `/comment` appends
exactly one row, whose user id is 1; a POST to `/like` or `/dislike` for a
post that user 1 has not yet reacted to in that way appends exactly one row,
whose user id is 1, and on a database that satisfies the schema it always
leaves exactly one such row of user 1; no request adds a row with another
user id. -/
theorem acting_user_fixed (aff : String → SqlValue) (r1 r2 : Request) (now : Nat) (db : DB)
    (hm : r1.Method = r2.Method) (hf : r1.Form = r2.Form)
    (h1 : getSession r1 "user" ≠ "guest") (h2 : getSession r2 "user" ≠ "guest") :
    (authorize createPostHandler r1 now db = authorize createPostHandler r2 now db ∧
     authorize (commentHandler aff) r1 now db = authorize (commentHandler aff) r2 now db ∧
     authorize (likeHandler aff) r1 now db = authorize (likeHandler aff) r2 now db ∧
     authorize (dislikeHandler aff) r1 now db = authorize (dislikeHandler aff) r2 now db) ∧
    (r1.Method = "POST" →
      authorize createPostHandler r1 now db =
        ({ status := 303, location := some "/forum", cookies := [], body := .empty },
         { db with
           Posts := db.Posts ++
             [{ id := nextRowid db.seqPosts (db.Posts.map (fun p => p.id)),
                title := r1.FormValue "title", content := r1.FormValue "content",
                user_id := 1, created_at := now }],
           seqPosts := nextRowid db.seqPosts (db.Posts.map (fun p => p.id)) }) ∧
      authorize (commentHandler aff) r1 now db =
        ({ status := 303, location := some "/forum", cookies := [], body := .empty },
         { db with
           Comments := db.Comments ++
             [{ id := nextRowid db.seqComments (db.Comments.map (fun c => c.id)),
                content := r1.FormValue "comment", user_id := 1,
                post_id := aff (r1.FormValue "post_id"), created_at := now }],
           seqComments := nextRowid db.seqComments (db.Comments.map (fun c => c.id)) }) ∧
      (db.Likes.find? (ReactionRow.isPair 1 (aff (r1.FormValue "post_id"))) = none →
        authorize (likeHandler aff) r1 now db =
          ({ status := 303, location := some "/forum", cookies := [], body := .empty },
           { db with
             Likes := db.Likes ++
               [{ id := nextRowid db.seqLikes (db.Likes.map (fun r => r.id)),
                  user_id := 1, post_id := aff (r1.FormValue "post_id") }],
             seqLikes := nextRowid db.seqLikes (db.Likes.map (fun r => r.id)),
             Dislikes := db.Dislikes.filter
               (fun r => !ReactionRow.isPair 1 (aff (r1.FormValue "post_id")) r) })) ∧
      (db.Dislikes.find? (ReactionRow.isPair 1 (aff (r1.FormValue "post_id"))) = none →
        authorize (dislikeHandler aff) r1 now db =
          ({ status := 303, location := some "/forum", cookies := [], body := .empty },
           { db with
             Dislikes := db.Dislikes ++
               [{ id := nextRowid db.seqDislikes (db.Dislikes.map (fun r => r.id)),
                  user_id := 1, post_id := aff (r1.FormValue "post_id") }],
             seqDislikes := nextRowid db.seqDislikes (db.Dislikes.map (fun r => r.id)),
             Likes := db.Likes.filter
               (fun r => !ReactionRow.isPair 1 (aff (r1.FormValue "post_id")) r) })) ∧
      (SchemaValid db →
        pairCount (authorize (likeHandler aff) r1 now db).2.Likes 1
            (aff (r1.FormValue "post_id")) = 1 ∧
        pairCount (authorize (dislikeHandler aff) r1 now db).2.Dislikes 1
            (aff (r1.FormValue "post_id")) = 1)) ∧
    (∀ p ∈ (authorize createPostHandler r1 now db).2.Posts, p ∈ db.Posts ∨ p.user_id = 1) ∧
    (∀ c ∈ (authorize (commentHandler aff) r1 now db).2.Comments,
        c ∈ db.Comments ∨ c.user_id = 1) ∧
    (∀ l ∈ (authorize (likeHandler aff) r1 now db).2.Likes, l ∈ db.Likes ∨ l.user_id = 1) ∧
    (∀ l ∈ (authorize (dislikeHandler aff) r1 now db).2.Dislikes,
        l ∈ db.Dislikes ∨ l.user_id = 1) := by
  have e : ∀ (h : Handler) (r : Request), getSession r "user" ≠ "guest" →
      authorize h r now db = h r now db := by
    intro h r hr
    simp [authorize, hr]
  obtain ⟨method, form, cookies1⟩ := r1
  obtain ⟨method2, form2, cookies2⟩ := r2
  simp only at hm hf
  subst hm hf
  refine ⟨⟨?_, ?_, ?_, ?_⟩, ?_, ?_, ?_, ?_, ?_⟩
  · rw [e _ _ h1, e _ _ h2]; rfl
  · rw [e _ _ h1, e _ _ h2]; rfl
  · rw [e _ _ h1, e _ _ h2]; rfl
  · rw [e _ _ h1, e _ _ h2]; rfl
  · intro hpost
    simp only at hpost
    subst hpost
    have hget : ("POST" : String) ≠ "GET" := by decide
    refine ⟨?_, ?_, ?_, ?_, ?_⟩
    · rw [e _ _ h1]
      simp [createPostHandler, createPost, DB.insertPost, execResult, httpRedirect,
        Response.fresh]
    · rw [e _ _ h1]
      simp [commentHandler, createComment, DB.insertComment, execResult, httpRedirect,
        Response.fresh]
    · intro hnone
      rw [e _ _ h1]
      simp only [likeHandler, if_true]
      rw [likePost_absent aff db _ 1 hnone]
      simp [httpRedirect, Response.fresh]
    · intro hnone
      rw [e _ _ h1]
      simp only [dislikeHandler, if_true]
      rw [dislikePost_absent aff db _ 1 hnone]
      simp [httpRedirect, Response.fresh]
    · intro hv
      rw [e _ _ h1, e _ _ h1]
      constructor
      · have hc := likePost_count aff db
          (Request.FormValue { Method := "POST", Form := form, Cookies := cookies1 } "post_id")
          1 hv
        simp only [likeHandler, if_true]
        generalize likePost aff db
          (Request.FormValue { Method := "POST", Form := form, Cookies := cookies1 } "post_id")
          1 = res at hc
        obtain ⟨err, db1⟩ := res
        simp only at hc
        obtain ⟨rfl, hc⟩ := hc
        exact hc
      · have hc := dislikePost_count aff db
          (Request.FormValue { Method := "POST", Form := form, Cookies := cookies1 } "post_id")
          1 hv
        simp only [dislikeHandler, if_true]
        generalize dislikePost aff db
          (Request.FormValue { Method := "POST", Form := form, Cookies := cookies1 } "post_id")
          1 = res at hc
        obtain ⟨err, db1⟩ := res
        simp only at hc
        obtain ⟨rfl, hc⟩ := hc
        exact hc
  · rw [e _ _ h1]
    intro p hp
    unfold createPostHandler createPost DB.insertPost execResult at hp
    simp only at hp
    split_ifs at hp
    · simp only [List.mem_append, List.mem_singleton] at hp
      rcases hp with hp | rfl
      · exact Or.inl hp
      · exact Or.inr rfl
    · exact Or.inl hp
  · rw [e _ _ h1]
    intro c hc
    unfold commentHandler createComment DB.insertComment execResult at hc
    simp only at hc
    split_ifs at hc
    · simp only [List.mem_append, List.mem_singleton] at hc
      rcases hc with hc | rfl
      · exact Or.inl hc
      · exact Or.inr rfl
    · exact Or.inl hc
  · rw [e _ _ h1]
    intro l hl
    unfold likeHandler at hl
    simp only at hl
    split_ifs at hl
    · have hrows := likePost_rows aff db
        (Request.FormValue { Method := method, Form := form, Cookies := cookies1 } "post_id") 1 l
      generalize likePost aff db
        (Request.FormValue { Method := method, Form := form, Cookies := cookies1 } "post_id") 1
        = res at hl hrows
      obtain ⟨err, db1⟩ := res
      cases err <;> exact hrows hl
    · exact Or.inl hl
  · rw [e _ _ h1]
    intro l hl
    unfold dislikeHandler at hl
    simp only at hl
    split_ifs at hl
    · have hrows := dislikePost_rows aff db
        (Request.FormValue { Method := method, Form := form, Cookies := cookies1 } "post_id") 1 l
      generalize dislikePost aff db
        (Request.FormValue { Method := method, Form := form, Cookies := cookies1 } "post_id") 1
        = res at hl hrows
      obtain ⟨err, db1⟩ := res
      cases err <;> exact hrows hl
    · exact Or.inl hl

/-- Witness of C10: bob (user id 2) and alice (user id 1) send the same
form; the post, the comment and the like bob's request stores carry user
id 1, and the two requests have the same outcome. -/
theorem acting_user_fixed_witness :
    ((postAs "b@x.com").Method = (postAs "a@x.com").Method ∧
     (postAs "b@x.com").Form = (postAs "a@x.com").Form ∧
     getSession (postAs "b@x.com") "user" ≠ "guest" ∧
     getSession (postAs "a@x.com") "user" ≠ "guest" ∧
     (postAs "b@x.com").Method = "POST" ∧
     twoUsersDB.Likes.find? (ReactionRow.isPair 1
       (decimalAffinity ((postAs "b@x.com").FormValue "post_id"))) = none) ∧
    twoUsersDB.Users =
      [{ id := 1, email := "a@x.com", username := "alice", password := "pw1" },
       { id := 2, email := "b@x.com", username := "bob", password := "pw2" }] ∧
    (authorize createPostHandler (postAs "b@x.com") 0 twoUsersDB).2.Posts =
      [{ id := 1, title := "t", content := "c", user_id := 1, created_at := 0 }] ∧
    (authorize (commentHandler decimalAffinity) (postAs "b@x.com") 0 twoUsersDB).2.Comments =
      [{ id := 1, content := "hi", user_id := 1, post_id := .integer 1, created_at := 0 }] ∧
    (authorize (likeHandler decimalAffinity) (postAs "b@x.com") 0 twoUsersDB).2.Likes =
      [{ id := 1, user_id := 1, post_id := .integer 1 }] ∧
    authorize createPostHandler (postAs "b@x.com") 0 twoUsersDB =
      authorize createPostHandler (postAs "a@x.com") 0 twoUsersDB :=
  ⟨⟨rfl, rfl, by decide, by decide, rfl, by decide⟩,
   by decide,
   (congrArg (fun x => x.2.Posts)
     ((acting_user_fixed decimalAffinity (postAs "b@x.com") (postAs "a@x.com") 0 twoUsersDB
       rfl rfl (by decide) (by decide)).2.1 rfl).1).trans (by decide),
   (congrArg (fun x => x.2.Comments)
     ((acting_user_fixed decimalAffinity (postAs "b@x.com") (postAs "a@x.com") 0 twoUsersDB
       rfl rfl (by decide) (by decide)).2.1 rfl).2.1).trans (by decide),
   (congrArg (fun x => x.2.Likes)
     (((acting_user_fixed decimalAffinity (postAs "b@x.com") (postAs "a@x.com") 0 twoUsersDB
       rfl rfl (by decide) (by decide)).2.1 rfl).2.2.1 (by decide))).trans (by decide),
   (acting_user_fixed decimalAffinity (postAs "b@x.com") (postAs "a@x.com") 0 twoUsersDB
     rfl rfl (by decide) (by decide)).1.1⟩

end Forum
